import Mathlib

/-!
Verification of the user-group request handlers in
`zerver/views/user_groups.py`.

The handlers are embedded as pure functions over an explicit environment
(`Env`): the realm's resolvable user ids, the stored groups, and the set of
group ids the caller may access.  Every call into an external collaborator
(group lookup, user resolution, rename, bulk add/remove, ...) is recorded in
an event trace (`Ev`), so that statements such as "no mutation is performed"
or "the sub-operation is never invoked" are directly expressible.  Each
handler returns the environment after the call, the trace of collaborator
calls it made, and either a success payload or the structured error raised.
-/

/-- A stored user group: integer id, name, free-text description, and the
list of its direct member ids. -/
structure UserGroup where
  id : Nat
  name : String
  description : String
  directMembers : List Nat
deriving DecidableEq, Repr

/-- The external state a request runs against: the ids resolvable to user
records in the caller's realm, the stored groups, and the ids of groups the
caller is permitted to access. -/
structure Env where
  validUsers : List Nat
  groups : List UserGroup
  accessibleGroups : List Nat
deriving DecidableEq, Repr

/-- Structured errors raised by the handlers (`JsonableError` payloads). -/
inductive Err where
  | noNewData
  | nothingToDo
  | groupAccess (groupId : Nat)
  | invalidUser (userId : Nat)
  | alreadyMember (userId : Nat)
  | noSuchMember (userId : Nat)
deriving DecidableEq, Repr

/-- Events recording each call into an external collaborator. -/
inductive Ev where
  | accessGroup (groupId : Nat)
  | resolveUsers (ids : List Nat)
  | updateName (groupId : Nat) (name : String)
  | updateDesc (groupId : Nat) (description : String)
  | bulkAdd (groupId : Nat) (ids : List Nat)
  | bulkRemove (groupId : Nat) (ids : List Nat)
deriving DecidableEq, Repr

/-- A JSON success payload, as an association list of key/value pairs.  The
handlers here all return empty data payloads. -/
abbrev Payload := List (String × String)

/-- The outcome of one handler call: the environment after the call, the
trace of collaborator calls made, and the success payload or the error. -/
abbrev Outcome := Env × List Ev × Except Err Payload

/-- Look up a stored group by id. -/
def findGroup (env : Env) (groupId : Nat) : Option UserGroup :=
  env.groups.find? (fun g => g.id == groupId)

/-- Replace the stored group with the same id as `g` by `g`. -/
def setGroup (env : Env) (g : UserGroup) : Env :=
  { env with groups := env.groups.map (fun h => if h.id == g.id then g else h) }

/-- Modelled from the spec: `access_user_group_by_id`
(`zerver/lib/user_groups.py`, not under `src/`) — "group accessor-by-id with
permission enforcement": resolves a group id to the group, failing with a
not-found/forbidden error when the group does not exist or the caller may
not access it. -/
def access_user_group_by_id (env : Env) (groupId : Nat) : Except Err UserGroup :=
  match findGroup env groupId with
  | some g =>
      if env.accessibleGroups.contains groupId then Except.ok g
      else Except.error (Err.groupAccess groupId)
  | none => Except.error (Err.groupAccess groupId)

/-- Modelled from the spec: `user_ids_to_users` (`zerver/lib/users.py`, not
under `src/`) — "id→user-record resolver scoped to a workspace": resolves
each id to a user record of the realm, failing if any id is invalid for the
realm.  User records are represented by their ids. -/
def user_ids_to_users (env : Env) (ids : List Nat) : Except Err (List Nat) :=
  match ids.find? (fun i => !(env.validUsers.contains i)) with
  | some bad => Except.error (Err.invalidUser bad)
  | none => Except.ok ids

/-- Modelled from the spec: `get_direct_memberships_of_users`
(`zerver/lib/user_groups.py`, not under `src/`) — "direct-membership-set
query": the ids among the given users that are direct members of the
group. -/
def get_direct_memberships_of_users (g : UserGroup) (users : List Nat) : List Nat :=
  g.directMembers.filter (fun i => users.contains i)

/-- Modelled from the spec: `get_user_group_direct_members`
(`zerver/lib/user_groups.py`, not under `src/`): the group's direct member
id set. -/
def get_user_group_direct_members (g : UserGroup) : List Nat :=
  g.directMembers

/-- Modelled from the spec: `bulk_add_members_to_user_group`
(`zerver/actions/user_groups.py`, not under `src/`) — "bulk add persistence
call": adds all the given users to the group's membership. -/
def bulk_add_members_to_user_group (g : UserGroup) (ids : List Nat) : UserGroup :=
  { g with directMembers := g.directMembers ++ ids }

/-- Modelled from the spec: `remove_members_from_user_group`
(`zerver/actions/user_groups.py`, not under `src/`) — "bulk remove
persistence call": removes all the given users from the group's
membership. -/
def remove_members_from_user_group (g : UserGroup) (ids : List Nat) : UserGroup :=
  { g with directMembers := g.directMembers.filter (fun i => !(ids.contains i)) }

/-- Modelled from the spec: `do_update_user_group_name`
(`zerver/actions/user_groups.py`, not under `src/`) — "name update call". -/
def do_update_user_group_name (g : UserGroup) (name : String) : UserGroup :=
  { g with name := name }

/-- Modelled from the spec: `do_update_user_group_description`
(`zerver/actions/user_groups.py`, not under `src/`) — "description update
call". -/
def do_update_user_group_description (g : UserGroup) (description : String) : UserGroup :=
  { g with description := description }

/-- Merge of two success payloads in `dict.update` style: on a key
collision the later payload's value wins. -/
def mergePayload (p1 p2 : Payload) : Payload :=
  p1.filter (fun kv => (p2.find? (fun kv2 => kv2.1 == kv.1)).isNone) ++ p2

/-- `edit_user_group` (`zerver/views/user_groups.py`, lines 53-71): rejects
the request when both the supplied name and description are empty, resolves
the group, renames it when the supplied name differs from the current one,
redescribes it when the supplied description differs from the current
one. -/
def edit_user_group (env : Env) (user_group_id : Nat)
    (name description : String) : Outcome :=
  if name = "" ∧ description = "" then
    (env, [], Except.error Err.noNewData)
  else
    match access_user_group_by_id env user_group_id with
    | Except.error e => (env, [Ev.accessGroup user_group_id], Except.error e)
    | Except.ok user_group =>
        let g1 := if name ≠ user_group.name then
            do_update_user_group_name user_group name else user_group
        let tr1 := if name ≠ user_group.name then
            [Ev.updateName user_group.id name] else []
        let g2 := if description ≠ user_group.description then
            do_update_user_group_description g1 description else g1
        let tr2 := if description ≠ user_group.description then
            [Ev.updateDesc user_group.id description] else []
        (setGroup env g2, Ev.accessGroup user_group_id :: (tr1 ++ tr2),
          Except.ok [])

/-- `add_members_to_group_backend` (`zerver/views/user_groups.py`, lines
111-131): no-op on an empty member list; otherwise resolves the group, then
the users, errors on the first resolved user already a direct member, and
otherwise bulk-adds all resolved users. -/
def add_members_to_group_backend (env : Env) (user_group_id : Nat)
    (members : List Nat) : Outcome :=
  if members = [] then
    (env, [], Except.ok [])
  else
    match access_user_group_by_id env user_group_id with
    | Except.error e => (env, [Ev.accessGroup user_group_id], Except.error e)
    | Except.ok user_group =>
        match user_ids_to_users env members with
        | Except.error e =>
            (env, [Ev.accessGroup user_group_id, Ev.resolveUsers members],
              Except.error e)
        | Except.ok user_profiles =>
            let existing_member_ids :=
              get_direct_memberships_of_users user_group user_profiles
            match user_profiles.find?
                (fun u => existing_member_ids.contains u) with
            | some u =>
                (env, [Ev.accessGroup user_group_id, Ev.resolveUsers members],
                  Except.error (Err.alreadyMember u))
            | none =>
                (setGroup env
                    (bulk_add_members_to_user_group user_group user_profiles),
                  [Ev.accessGroup user_group_id, Ev.resolveUsers members,
                    Ev.bulkAdd user_group.id user_profiles],
                  Except.ok [])

/-- `remove_members_from_group_backend` (`zerver/views/user_groups.py`,
lines 134-149): no-op on an empty member list; otherwise resolves the
users, then the group, errors on the first requested id not a current
direct member, and otherwise bulk-removes all resolved users. -/
def remove_members_from_group_backend (env : Env) (user_group_id : Nat)
    (members : List Nat) : Outcome :=
  if members = [] then
    (env, [], Except.ok [])
  else
    match user_ids_to_users env members with
    | Except.error e => (env, [Ev.resolveUsers members], Except.error e)
    | Except.ok user_profiles =>
        match access_user_group_by_id env user_group_id with
        | Except.error e =>
            (env, [Ev.resolveUsers members, Ev.accessGroup user_group_id],
              Except.error e)
        | Except.ok user_group =>
            let group_member_ids := get_user_group_direct_members user_group
            match members.find?
                (fun m => !(group_member_ids.contains m)) with
            | some m =>
                (env, [Ev.resolveUsers members, Ev.accessGroup user_group_id],
                  Except.error (Err.noSuchMember m))
            | none =>
                (setGroup env
                    (remove_members_from_user_group user_group user_profiles),
                  [Ev.resolveUsers members, Ev.accessGroup user_group_id,
                    Ev.bulkRemove user_group.id user_profiles],
                  Except.ok [])

/-- Modelled from the spec: `compose_views` (`zerver/views/streams.py`, not
under `src/`) — "a response-composition helper that merges multiple handler
results into one payload": runs the thunks in order, merging the success
payloads (later values win on key collision); if a thunk fails, the whole
composition fails with that error, no partial payload is returned, and the
state mutations of earlier thunks are not rolled back. -/
def compose_views (env : Env) (thunks : List (Env → Outcome)) : Outcome :=
  match thunks with
  | [] => (env, [], Except.ok [])
  | t :: ts =>
      let (env1, tr1, r1) := t env
      match r1 with
      | Except.error e => (env1, tr1, Except.error e)
      | Except.ok p1 =>
          let (env2, tr2, r2) := compose_views env1 ts
          match r2 with
          | Except.error e => (env2, tr1 ++ tr2, Except.error e)
          | Except.ok p2 => (env2, tr1 ++ tr2, Except.ok (mergePayload p1 p2))

/-- `update_user_group_backend` (`zerver/views/user_groups.py`, lines
88-108): rejects the request when both lists are empty, otherwise composes
the add sub-operation followed by the remove sub-operation. -/
def update_user_group_backend (env : Env) (user_group_id : Nat)
    (delete add : List Nat) : Outcome :=
  if add = [] ∧ delete = [] then
    (env, [], Except.error Err.nothingToDo)
  else
    compose_views env
      [fun e => add_members_to_group_backend e user_group_id add,
       fun e => remove_members_from_group_backend e user_group_id delete]

/-- A concrete environment for witnesses: one accessible group with a
single direct member. -/
def envA : Env :=
  { validUsers := [5, 6, 7],
    groups :=
      [{ id := 1, name := "devs", description := "the devs",
         directMembers := [5] }],
    accessibleGroups := [1] }

/-- The group stored in `envA`. -/
def groupA : UserGroup :=
  { id := 1, name := "devs", description := "the devs", directMembers := [5] }

/-- A concrete environment for witnesses: no users, no groups. -/
def envB : Env := { validUsers := [], groups := [], accessibleGroups := [] }

/-- Two `find?` calls agree when their predicates agree on the list's
elements. -/
theorem find_congr {α : Type} (p q : α → Bool) :
    ∀ l : List α, (∀ a ∈ l, p a = q a) → l.find? p = l.find? q := by
  intro l
  induction l with
  | nil => intro _; rfl
  | cons a as ih =>
      intro h
      simp only [List.find?]
      rw [h a (List.mem_cons_self a as)]
      cases hq : q a with
      | true => rfl
      | false => exact ih (fun b hb => h b (List.mem_cons_of_mem a hb))

/-- Characterization of `compose_views` on a two-thunk list: the first
thunk's error short-circuits, the second thunk runs on the first thunk's
resulting environment, and a failure outcome carries the environment of the
thunks that ran. -/
theorem compose_views_two (env : Env) (t1 t2 : Env → Outcome)
    (env1 env2 : Env) (tr1 tr2 : List Ev) (r1 r2 : Except Err Payload)
    (h1 : t1 env = (env1, tr1, r1)) (h2 : t2 env1 = (env2, tr2, r2)) :
    compose_views env [t1, t2] =
      match r1 with
      | Except.error e => (env1, tr1, Except.error e)
      | Except.ok p1 =>
          match r2 with
          | Except.error e => (env2, tr1 ++ tr2, Except.error e)
          | Except.ok p2 =>
              (env2, tr1 ++ tr2,
                Except.ok (mergePayload p1 (mergePayload p2 []))) := by
  cases r1 with
  | error e => simp [compose_views, h1]
  | ok p1 =>
      cases r2 with
      | error e => simp [compose_views, h1, h2]
      | ok p2 => simp [compose_views, h1, h2]

/-- The add sub-operation never emits a bulk-remove collaborator call. -/
theorem bulkRemove_not_mem_add_trace (env : Env) (user_group_id : Nat)
    (members : List Nat) (gid : Nat) (ids : List Nat) :
    Ev.bulkRemove gid ids ∉
      (add_members_to_group_backend env user_group_id members).2.1 := by
  unfold add_members_to_group_backend
  split
  · simp
  · split
    · simp
    · split
      · simp
      · dsimp only
        split
        · simp
        · simp

/-- C1: an edit request with both the supplied name and description empty
fails with the "No new data supplied" error before resolving the group
(empty trace), with the environment unchanged, whatever the group's current
name and description are. -/
theorem edit_user_group_no_new_data (env : Env) (user_group_id : Nat) :
    edit_user_group env user_group_id "" "" =
      (env, [], Except.error Err.noNewData) := rfl

/-- C2: a membership-update request with both the add and the delete lists
empty fails with the "Nothing to do" error, the trace is empty (neither
sub-operation is invoked) and the environment is unchanged. -/
theorem update_user_group_backend_nothing_to_do (env : Env)
    (user_group_id : Nat) :
    update_user_group_backend env user_group_id [] [] =
      (env, [], Except.error Err.nothingToDo) := rfl

/-- C7: an add-members call and a remove-members call with an empty member
list each return success immediately, with an empty trace (no group or user
resolution) and the environment unchanged. -/
theorem empty_members_noop (env : Env) (user_group_id : Nat) :
    add_members_to_group_backend env user_group_id [] =
      (env, [], Except.ok []) ∧
    remove_members_from_group_backend env user_group_id [] =
      (env, [], Except.ok []) := ⟨rfl, rfl⟩

/-- C3: when the resolved user list of a non-empty add-members call
contains a user already a direct member of the group, the call fails with
the "already a member" error naming the first such user in iteration
order, and the environment is unchanged: no user from the request is added
to the group's membership. -/
theorem add_members_already_member (env : Env) (user_group_id : Nat)
    (members : List Nat) (g : UserGroup) (u : Nat)
    (hne : members ≠ [])
    (hacc : access_user_group_by_id env user_group_id = Except.ok g)
    (hres : user_ids_to_users env members = Except.ok members)
    (hfind : members.find? (fun m => g.directMembers.contains m) = some u) :
    add_members_to_group_backend env user_group_id members =
      (env, [Ev.accessGroup user_group_id, Ev.resolveUsers members],
        Except.error (Err.alreadyMember u)) := by
  have hc : members.find?
      (fun x => (get_direct_memberships_of_users g members).contains x) =
      members.find? (fun m => g.directMembers.contains m) := by
    apply find_congr
    intro a ha
    unfold get_direct_memberships_of_users
    by_cases hg : a ∈ g.directMembers
    · simp [List.elem_iff, List.mem_filter, hg, ha]
    · simp [List.elem_iff, List.mem_filter, hg]
  unfold add_members_to_group_backend
  rw [if_neg hne, hacc, hres]
  simp only [hc, hfind]

/-- C3 witness: in `envA`, adding `[5, 6]` to group 1 (whose direct members
are `[5]`) fails with "already a member" for user 5 and leaves the
environment unchanged; user 6 is never added. -/
theorem add_members_already_member_witness :
    add_members_to_group_backend envA 1 [5, 6] =
      (envA, [Ev.accessGroup 1, Ev.resolveUsers [5, 6]],
        Except.error (Err.alreadyMember 5)) :=
  add_members_already_member envA 1 [5, 6] groupA 5 (by decide) rfl rfl rfl

/-- C4: when the requested id list of a non-empty remove-members call
contains an id that is not a current direct member of the group, the call
fails with the "no member" error naming the first such id in iteration
order, and the environment is unchanged: no removal is performed. -/
theorem remove_members_no_such_member (env : Env) (user_group_id : Nat)
    (members : List Nat) (g : UserGroup) (m : Nat)
    (hne : members ≠ [])
    (hres : user_ids_to_users env members = Except.ok members)
    (hacc : access_user_group_by_id env user_group_id = Except.ok g)
    (hfind : members.find? (fun i => !(g.directMembers.contains i)) = some m) :
    remove_members_from_group_backend env user_group_id members =
      (env, [Ev.resolveUsers members, Ev.accessGroup user_group_id],
        Except.error (Err.noSuchMember m)) := by
  unfold remove_members_from_group_backend
  rw [if_neg hne, hres, hacc]
  simp only [get_user_group_direct_members, hfind]

/-- C4 witness: in `envA`, removing `[7]` from group 1 (whose direct
members are `[5]`) fails with "no member" for id 7 and leaves the
environment unchanged. -/
theorem remove_members_no_such_member_witness :
    remove_members_from_group_backend envA 1 [7] =
      (envA, [Ev.resolveUsers [7], Ev.accessGroup 1],
        Except.error (Err.noSuchMember 7)) :=
  remove_members_no_such_member envA 1 [7] groupA 7 (by decide) rfl rfl rfl

/-- C5: an edit request that passes the emptiness check and resolves the
group succeeds, invokes the rename collaborator iff the supplied name
differs from the group's current name, and invokes the redescription
collaborator iff the supplied description differs from the group's current
description; in particular a request with the current name and a new
description updates only the description. -/
theorem edit_user_group_updates_iff (env : Env) (user_group_id : Nat)
    (name description : String) (g : UserGroup)
    (hne : ¬(name = "" ∧ description = ""))
    (hacc : access_user_group_by_id env user_group_id = Except.ok g) :
    (edit_user_group env user_group_id name description).2.2 =
      Except.ok [] ∧
    (Ev.updateName g.id name ∈
        (edit_user_group env user_group_id name description).2.1 ↔
      name ≠ g.name) ∧
    (Ev.updateDesc g.id description ∈
        (edit_user_group env user_group_id name description).2.1 ↔
      description ≠ g.description) := by
  unfold edit_user_group
  rw [if_neg hne, hacc]
  by_cases h1 : name = g.name <;> by_cases h2 : description = g.description <;>
    simp [h1, h2]

/-- C5 witness: in `envA`, editing group 1 (named "devs") with name "devs"
and description "new" succeeds, does not invoke the rename, and invokes the
redescription. -/
theorem edit_user_group_updates_iff_witness :
    (edit_user_group envA 1 "devs" "new").2.2 = Except.ok [] ∧
    (Ev.updateName groupA.id "devs" ∈
        (edit_user_group envA 1 "devs" "new").2.1 ↔ "devs" ≠ groupA.name) ∧
    (Ev.updateDesc groupA.id "new" ∈
        (edit_user_group envA 1 "devs" "new").2.1 ↔
      "new" ≠ groupA.description) :=
  edit_user_group_updates_iff envA 1 "devs" "new" groupA (by decide) rfl

/-- C6: when either sub-operation of a membership-update request fails —
the add sub-operation on the initial environment, or the remove
sub-operation on the environment the add sub-operation produced — the whole
request fails with that error and no success payload is returned, while the
final environment is the one after the sub-operations that ran: the other
sub-operation's mutation is not rolled back. -/
theorem update_user_group_backend_error_propagation (env : Env)
    (user_group_id : Nat) (delete add : List Nat)
    (hne : ¬(add = [] ∧ delete = [])) (e : Err)
    (h : (add_members_to_group_backend env user_group_id add).2.2 =
          Except.error e ∨
        ((add_members_to_group_backend env user_group_id add).2.2.isOk =
            true ∧
         (remove_members_from_group_backend
            (add_members_to_group_backend env user_group_id add).1
            user_group_id delete).2.2 = Except.error e)) :
    (update_user_group_backend env user_group_id delete add).2.2 =
      Except.error e ∧
    (update_user_group_backend env user_group_id delete add).1 =
      (if (add_members_to_group_backend env user_group_id add).2.2.isOk =
          true
       then (remove_members_from_group_backend
              (add_members_to_group_backend env user_group_id add).1
              user_group_id delete).1
       else (add_members_to_group_backend env user_group_id add).1) := by
  rcases hA : add_members_to_group_backend env user_group_id add with
    ⟨env1, tr1, r1⟩
  rcases hR : remove_members_from_group_backend env1 user_group_id delete with
    ⟨env2, tr2, r2⟩
  have hu : update_user_group_backend env user_group_id delete add =
      compose_views env
        [fun e => add_members_to_group_backend e user_group_id add,
         fun e => remove_members_from_group_backend e user_group_id delete] := by
    unfold update_user_group_backend
    rw [if_neg hne]
  simp only [hA] at h ⊢
  simp only [hR] at h ⊢
  rw [hu, compose_views_two env _ _ env1 env2 tr1 tr2 r1 r2 hA hR]
  rcases h with hfail | ⟨hok, hrfail⟩
  · subst hfail
    simp [Except.isOk, Except.toBool]
  · cases r1 with
    | error e1 => simp [Except.isOk, Except.toBool] at hok
    | ok p1 =>
        subst hrfail
        simp [Except.isOk, Except.toBool]

/-- C6 witness: in `envA`, a membership update on group 1 with add `[6]`
and delete `[7]` fails with "no member 7" (the remove sub-operation's
error), returns no payload, and its final environment is the one the
remove sub-operation saw — which still contains the addition of user 6. -/
theorem update_user_group_backend_error_propagation_witness :
    (update_user_group_backend envA 1 [7] [6]).2.2 =
      Except.error (Err.noSuchMember 7) ∧
    (update_user_group_backend envA 1 [7] [6]).1 =
      (if (add_members_to_group_backend envA 1 [6]).2.2.isOk = true
       then (remove_members_from_group_backend
              (add_members_to_group_backend envA 1 [6]).1 1 [7]).1
       else (add_members_to_group_backend envA 1 [6]).1) :=
  update_user_group_backend_error_propagation envA 1 [7] [6]
    (by decide) (Err.noSuchMember 7) (Or.inr ⟨rfl, rfl⟩)

/-- C8: an edit request that omits the name (so it defaults to the empty
string) but supplies a non-empty description, against a group whose current
name is non-empty, invokes the rename collaborator with the empty string;
symmetrically, supplying only a non-empty name against a group with a
non-empty current description invokes the redescription collaborator with
the empty string. -/
theorem edit_user_group_empty_default_clears (env : Env)
    (user_group_id : Nat) (g : UserGroup) (n d : String)
    (hacc : access_user_group_by_id env user_group_id = Except.ok g)
    (hd : d ≠ "") (hgname : g.name ≠ "")
    (hn : n ≠ "") (hgdesc : g.description ≠ "") :
    Ev.updateName g.id "" ∈ (edit_user_group env user_group_id "" d).2.1 ∧
    Ev.updateDesc g.id "" ∈ (edit_user_group env user_group_id n "").2.1 := by
  constructor
  · unfold edit_user_group
    rw [if_neg (fun hc => hd hc.2), hacc]
    have h1 : "" ≠ g.name := fun h => hgname h.symm
    simp [h1]
  · unfold edit_user_group
    rw [if_neg (fun hc => hn hc.1), hacc]
    have h2 : "" ≠ g.description := fun h => hgdesc h.symm
    simp [h2]

/-- C8 witness: in `envA`, editing group 1 (named "devs", described "the
devs") with an empty name and description "newdesc" invokes the rename with
""; editing it with name "newname" and an empty description invokes the
redescription with "". -/
theorem edit_user_group_empty_default_clears_witness :
    Ev.updateName groupA.id "" ∈ (edit_user_group envA 1 "" "newdesc").2.1 ∧
    Ev.updateDesc groupA.id "" ∈
      (edit_user_group envA 1 "newname" "").2.1 :=
  edit_user_group_empty_default_clears envA 1 groupA "newname" "newdesc"
    rfl (by decide) (by decide) (by decide) (by decide)

/-- C9: the two sub-operations check preconditions in opposite orders: on a
non-empty member list, when group access fails and user resolution fails,
the add path reports the group error having only called the group accessor,
while the remove path reports the user error having only called the user
resolver. -/
theorem add_remove_resolution_order (env : Env) (user_group_id : Nat)
    (members : List Nat) (eg eu : Err)
    (hne : members ≠ [])
    (hg : access_user_group_by_id env user_group_id = Except.error eg)
    (hu : user_ids_to_users env members = Except.error eu) :
    add_members_to_group_backend env user_group_id members =
      (env, [Ev.accessGroup user_group_id], Except.error eg) ∧
    remove_members_from_group_backend env user_group_id members =
      (env, [Ev.resolveUsers members], Except.error eu) := by
  constructor
  · unfold add_members_to_group_backend
    rw [if_neg hne, hg]
  · unfold remove_members_from_group_backend
    rw [if_neg hne, hu]

/-- C9 witness: in `envB` (no groups, no users), adding `[9]` to group 2
reports the group-access error, while removing `[9]` from group 2 reports
the invalid-user error. -/
theorem add_remove_resolution_order_witness :
    add_members_to_group_backend envB 2 [9] =
      (envB, [Ev.accessGroup 2], Except.error (Err.groupAccess 2)) ∧
    remove_members_from_group_backend envB 2 [9] =
      (envB, [Ev.resolveUsers [9]], Except.error (Err.invalidUser 9)) :=
  add_remove_resolution_order envB 2 [9] (Err.groupAccess 2)
    (Err.invalidUser 9) (by decide) rfl rfl

/-- C10: the membership-update thunk list runs the add sub-operation before
the remove sub-operation: when the add sub-operation fails, the whole
request's outcome is exactly the add sub-operation's outcome, and no
bulk-remove collaborator call ever appears in the request's trace. -/
theorem update_user_group_backend_add_first (env : Env)
    (user_group_id : Nat) (delete add : List Nat)
    (hne : ¬(add = [] ∧ delete = [])) (e : Err)
    (hfail : (add_members_to_group_backend env user_group_id add).2.2 =
      Except.error e) :
    update_user_group_backend env user_group_id delete add =
      ((add_members_to_group_backend env user_group_id add).1,
        (add_members_to_group_backend env user_group_id add).2.1,
        Except.error e) ∧
    ∀ gid ids, Ev.bulkRemove gid ids ∉
      (update_user_group_backend env user_group_id delete add).2.1 := by
  rcases hA : add_members_to_group_backend env user_group_id add with
    ⟨env1, tr1, r1⟩
  rcases hR : remove_members_from_group_backend env1 user_group_id delete with
    ⟨env2, tr2, r2⟩
  have hu : update_user_group_backend env user_group_id delete add =
      compose_views env
        [fun e => add_members_to_group_backend e user_group_id add,
         fun e => remove_members_from_group_backend e user_group_id delete] := by
    unfold update_user_group_backend
    rw [if_neg hne]
  simp only [hA] at hfail ⊢
  subst hfail
  rw [hu, compose_views_two env _ _ env1 env2 tr1 tr2 (Except.error e) r2 hA hR]
  constructor
  · rfl
  · intro gid ids
    have hmem := bulkRemove_not_mem_add_trace env user_group_id add gid ids
    rw [hA] at hmem
    simpa using hmem

/-- C10 witness: in `envA`, a membership update on group 1 with add
`[5, 6]` (user 5 already a member) and delete `[6]` has exactly the add
sub-operation's failing outcome, and no bulk-remove call is in its
trace. -/
theorem update_user_group_backend_add_first_witness :
    update_user_group_backend envA 1 [6] [5, 6] =
      ((add_members_to_group_backend envA 1 [5, 6]).1,
        (add_members_to_group_backend envA 1 [5, 6]).2.1,
        Except.error (Err.alreadyMember 5)) ∧
    ∀ gid ids, Ev.bulkRemove gid ids ∉
      (update_user_group_backend envA 1 [6] [5, 6]).2.1 :=
  update_user_group_backend_add_first envA 1 [6] [5, 6] (by decide)
    (Err.alreadyMember 5) rfl
